import Mathlib

/-!
Shallow embedding of `src/eimzo.py` (eimzo-Integration-with-Django): a Django
REST gateway that mediates digital-signature operations (challenge, join,
timestamp, verify) between clients and an external e-imzo authority over HTTP.

The outbound transport (`requests.get` / `requests.post`) is modelled as an
explicit parameter `auth : Authority` mapping each outbound request to the
authority's response; every operation additionally returns the list of
outbound requests it performed, so call-count properties are statable.
Python exceptions (`rest_framework.exceptions.ValidationError`) are modelled
with `Except`.
-/

/-- The Python/JSON values the gateway code inspects or forwards: strings,
booleans, and None/null. (The source never constructs or examines numbers,
arrays, or nested objects at the positions modelled here.) -/
inductive JVal where
  | str (s : String)
  | bool (b : Bool)
  | null
deriving DecidableEq, Repr

/-- Lookup in a parsed JSON object (association list): `some v` when the key
is present, `none` when absent. -/
def jsonGet (o : List (String × JVal)) (k : String) : Option JVal :=
  (o.find? (fun p => p.1 == k)).map (fun p => p.2)

/-- Python `dict.get(k)` (default `None`): absent keys give `null`; a key
stored as JSON `null` also reads back as `null`, exactly as in Python. -/
def pyGet (o : List (String × JVal)) (k : String) : JVal :=
  (jsonGet o k).getD JVal.null

/-- Python `dict.get(k, d)` with an explicit default `d`. -/
def pyGetD (o : List (String × JVal)) (k : String) (d : JVal) : JVal :=
  (jsonGet o k).getD d

/-- The inbound Django request, reduced to the fields `src/eimzo.py` reads:
`request.META` / `request.environ` entries (both are views of the same WSGI
environ, whose values are strings) and the parsed request body
`request.data`. -/
structure Request where
  http_x_real_ip : Option String
  remote_addr : Option String
  http_host : Option String
  data : List (String × JVal)

/-- Python truthiness of a WSGI environ lookup: `None` and the empty string
are falsy, every other string is truthy. -/
def pyTruthy : Option String → Bool
  | Option.none => false
  | Option.some s => !(s == "")

/-- `EimzoServiceApi.get_user_ip` (src/eimzo.py lines 17-35): prefer a truthy
`HTTP_X_REAL_IP`, then a truthy `REMOTE_ADDR`, else the sentinel
`"Unknown"`. -/
def get_user_ip (request : Request) : String :=
  if pyTruthy request.http_x_real_ip then request.http_x_real_ip.getD ""
  else if pyTruthy request.remote_addr then request.remote_addr.getD ""
  else "Unknown"

/-- The header dict built by `EimzoServiceApi.get_headers`: exactly the two
keys `Host` and `X-Real-IP`. -/
structure Headers where
  host : Option String
  x_real_ip : String
deriving DecidableEq, Repr

/-- `EimzoServiceApi.get_headers` (src/eimzo.py lines 37-48). -/
def get_headers (request : Request) : Headers :=
  { host := request.http_host, x_real_ip := get_user_ip request }

inductive Method where
  | get
  | post
deriving DecidableEq, Repr

/-- One outbound HTTP request to the authority, as handed to `requests.get`
or `requests.post`: method, URL, the header dict, and the `data=` payload
(`null` models Python `None`, i.e. no body — the default for GET). -/
structure OutboundRequest where
  method : Method
  url : String
  headers : Headers
  data : JVal
deriving DecidableEq, Repr

/-- The authority's response as the code consumes it: `res.status_code`,
`res.text` (raw body), and `res.json()` (parsed body as an object). -/
structure HttpResponse where
  status_code : Nat
  text : String
  body : List (String × JVal)
deriving DecidableEq, Repr

/-- The outbound transport: what the external authority answers to each
outbound request. The gateway performs no retries and no parsing beyond
exposing status, raw text, and parsed JSON. -/
abbrev Authority := OutboundRequest → HttpResponse

namespace EimzoServiceApi

/-- `self.VERIFY_URL` (src/eimzo.py line 10). -/
def VERIFY_URL : String := "http://e-imzo-server:8080/backend/pkcs7/verify"

/-- `self.JOIN_URL` (src/eimzo.py line 12). -/
def JOIN_URL : String := "http://e-imzo-server:8080/frontend/pkcs7/join"

/-- `self.TIME_STAMP_URL` (src/eimzo.py line 13). -/
def TIME_STAMP_URL : String := "http://e-imzo-server:8080/frontend/timestamp/pkcs7"

/-- `self.CHALLENGE_URL` (src/eimzo.py line 15). -/
def CHALLENGE_URL : String := "http://e-imzo-server:8080/frontend/challenge"

/-- The outbound request built by `eimzo_challenge`: GET to `CHALLENGE_URL`
with identity headers and no body. -/
def challengeCall (request : Request) : OutboundRequest :=
  { method := Method.get, url := CHALLENGE_URL, headers := get_headers request,
    data := JVal.null }

/-- `EimzoServiceApi.eimzo_challenge` (src/eimzo.py lines 50-55). Returns the
pair `(res.status_code, res)` together with the outbound calls performed. -/
def eimzo_challenge (auth : Authority) (request : Request) :
    (Nat × HttpResponse) × List OutboundRequest :=
  let oreq := challengeCall request
  let res := auth oreq
  ((res.status_code, res), [oreq])

/-- The outbound request built by `timestamp_pkcs7`: POST of the raw
envelope to `TIME_STAMP_URL`. -/
def timestampCall (request : Request) (pkcs7 : JVal) : OutboundRequest :=
  { method := Method.post, url := TIME_STAMP_URL, headers := get_headers request,
    data := pkcs7 }

/-- `EimzoServiceApi.timestamp_pkcs7` (src/eimzo.py lines 57-75). The Python
parameter is annotated `str` but unchecked; the payload is forwarded as
given, so it is typed `JVal` here. -/
def timestamp_pkcs7 (auth : Authority) (pkcs7 : JVal) (request : Request) :
    (Nat × HttpResponse) × List OutboundRequest :=
  let oreq := timestampCall request pkcs7
  let res := auth oreq
  ((res.status_code, res), [oreq])

/-- The outbound request built by `eimzo_verify`: POST of the raw envelope
to `VERIFY_URL + "/attached"`. -/
def verifyCall (request : Request) (pkcs7wtst : JVal) : OutboundRequest :=
  { method := Method.post, url := VERIFY_URL ++ "/attached",
    headers := get_headers request, data := pkcs7wtst }

/-- `EimzoServiceApi.eimzo_verify` (src/eimzo.py lines 77-90). -/
def eimzo_verify (auth : Authority) (pkcs7wtst : JVal) (request : Request) :
    (Nat × HttpResponse) × List OutboundRequest :=
  let oreq := verifyCall request pkcs7wtst
  let res := auth oreq
  ((res.status_code, res), [oreq])

/-- The outbound request built by `pkcs7_join`: POST of
`f"{pkcs7_data_1}|{pkcs7_data_2}"` to `JOIN_URL`. -/
def joinCall (request : Request) (pkcs7_data_1 pkcs7_data_2 : String) :
    OutboundRequest :=
  { method := Method.post, url := JOIN_URL, headers := get_headers request,
    data := JVal.str (pkcs7_data_1 ++ "|" ++ pkcs7_data_2) }

/-- `EimzoServiceApi.pkcs7_join` (src/eimzo.py lines 92-107): concatenates
the two fragments with a single `|` delimiter, in argument order, and POSTs
the result. -/
def pkcs7_join (auth : Authority) (pkcs7_data_1 pkcs7_data_2 : String)
    (request : Request) : (Nat × HttpResponse) × List OutboundRequest :=
  let oreq := joinCall request pkcs7_data_1 pkcs7_data_2
  let res := auth oreq
  ((res.status_code, res), [oreq])

end EimzoServiceApi

/-- `rest_framework.exceptions.ValidationError` as the source raises it:
`detail` is always a dict with keys `success` and `err_msg` (the latter a
string), and `code` is the upstream status when passed, `none` for the
DRF default (the missing-field raise at src/eimzo.py line 201 passes no
code). -/
structure ValidationError where
  success : Bool
  err_msg : String
  code : Option Nat
deriving DecidableEq, Repr

/-- A Python return value of a verify wrapper: `None` (a bare `return` /
falling off the end) or a parsed JSON object (`resp.json()`). -/
inductive PyValue where
  | none
  | obj (o : List (String × JVal))
deriving DecidableEq, Repr

/-- What `SavePkcsView.timestamp_pkcs7` returns (when it does not raise):
either a DRF `Response` object (status, and the `success` / `err_msg`
fields of its data dict, the latter being the whole parsed body), or the
extracted `pkcs7b64` value. Both arrive through the ordinary return
channel. -/
inductive TimestampReturn where
  | resp (stat : Nat) (success : Bool) (err_msg : List (String × JVal))
  | value (v : JVal)
deriving DecidableEq, Repr

namespace SavePkcsView

/-- `SavePkcsView.timestamp_pkcs7` (src/eimzo.py lines 119-139): non-200
raises `ValidationError`; on 200, `data_json.get("pkcs7b64", False)` is
compared `is False` — absent key or literal JSON `false` gives a 406
`Response` carrying the parsed body; anything else is returned as the
envelope. -/
def timestamp_pkcs7 (auth : Authority) (request : Request) (pkcs7 : JVal) :
    Except ValidationError TimestampReturn × List OutboundRequest :=
  let r := EimzoServiceApi.timestamp_pkcs7 auth pkcs7 request
  let status_code := r.1.1
  let resp := r.1.2
  if status_code ≠ 200 then
    (Except.error { success := false, err_msg := resp.text, code := some status_code }, r.2)
  else
    let data_json := resp.body
    let pkcs7b64 := pyGetD data_json "pkcs7b64" (JVal.bool false)
    if pkcs7b64 = JVal.bool false then
      (Except.ok (TimestampReturn.resp 406 false data_json), r.2)
    else
      (Except.ok (TimestampReturn.value pkcs7b64), r.2)

/-- `SavePkcsView.eimzo_verify` (src/eimzo.py lines 141-152): non-200 raises
`ValidationError`; on 200 the method body ends, so Python returns `None` —
the authority's response is discarded. -/
def eimzo_verify (auth : Authority) (request : Request) (pkcs7b64 : JVal) :
    Except ValidationError PyValue × List OutboundRequest :=
  let r := EimzoServiceApi.eimzo_verify auth pkcs7b64 request
  let status_code := r.1.1
  let resp := r.1.2
  if status_code ≠ 200 then
    (Except.error { success := false, err_msg := resp.text, code := some status_code }, r.2)
  else
    (Except.ok PyValue.none, r.2)

/-- `SavePkcsView.pkcs7_join` (src/eimzo.py lines 154-171): non-200 raises
`ValidationError`; on 200 returns `join_resp.get("pkcs7b64")`, which is
Python `None` (here `JVal.null`) when the field is absent. -/
def pkcs7_join (auth : Authority) (request : Request)
    (pkcs7_data_1 pkcs7_data_2 : String) :
    Except ValidationError JVal × List OutboundRequest :=
  let r := EimzoServiceApi.pkcs7_join auth pkcs7_data_1 pkcs7_data_2 request
  let status_code := r.1.1
  let resp := r.1.2
  if status_code ≠ 200 then
    (Except.error { success := false, err_msg := resp.text, code := some status_code }, r.2)
  else
    let join_resp := resp.body
    (Except.ok (pyGet join_resp "pkcs7b64"), r.2)

/-- Modelled from the spec: the compose endpoint `SavePkcsView.post` is an
unimplemented stub (`pass`, src/eimzo.py lines 174-176); spec section 4.3
defines the missing composite — chain the Join stage then the Timestamp
stage, feeding the joined envelope into the timestamp stage, a raised
rejection at either stage aborting the chain. The stages themselves are the
source's methods above. -/
def sign_and_stamp (auth : Authority) (request : Request)
    (pkcs7_data_1 pkcs7_data_2 : String) :
    Except ValidationError TimestampReturn × List OutboundRequest :=
  let j := pkcs7_join auth request pkcs7_data_1 pkcs7_data_2
  match j.1 with
  | Except.error e => (Except.error e, j.2)
  | Except.ok joined =>
      let t := timestamp_pkcs7 auth request joined
      (t.1, j.2 ++ t.2)

end SavePkcsView

/-- The DRF `Response(data=json_resp)` returned by `PkcsVerify.post`:
payload and status (DRF defaults to 200 when no status is passed). -/
structure VerifyResponse where
  data : PyValue
  stat : Nat
deriving DecidableEq, Repr

namespace PkcsVerify

/-- `PkcsVerify.eimzo_verify` (src/eimzo.py lines 182-194): non-200 raises
`ValidationError`; on 200 returns `resp.json()`. -/
def eimzo_verify (auth : Authority) (request : Request) (pkcs7b64 : JVal) :
    Except ValidationError PyValue × List OutboundRequest :=
  let r := EimzoServiceApi.eimzo_verify auth pkcs7b64 request
  let status_code := r.1.1
  let resp := r.1.2
  if status_code ≠ 200 then
    (Except.error { success := false, err_msg := resp.text, code := some status_code }, r.2)
  else
    (Except.ok (PyValue.obj resp.body), r.2)

/-- `PkcsVerify.post` (src/eimzo.py lines 197-208):
`request.data.get("pkcs7b64")` is `None` when the field is absent or its
value is JSON null — then a missing-field `ValidationError` is raised with
no upstream call; otherwise `eimzo_verify` runs (its `ValidationError`
propagates) and its JSON result is wrapped in a 200 `Response`. -/
def post (auth : Authority) (request : Request) :
    Except ValidationError VerifyResponse × List OutboundRequest :=
  let pkcs7b64 := pyGet request.data "pkcs7b64"
  if pkcs7b64 = JVal.null then
    (Except.error { success := false, err_msg := "pkcs7b64 field is required",
                    code := Option.none }, [])
  else
    let v := eimzo_verify auth request pkcs7b64
    match v.1 with
    | Except.error e => (Except.error e, v.2)
    | Except.ok json_resp => (Except.ok { data := json_resp, stat := 200 }, v.2)

end PkcsVerify

/-! Concrete fixtures used to instantiate the theorems below. -/

/-- A concrete inbound request carrying both identity fields and an empty
body. -/
def wReq : Request :=
  { http_x_real_ip := some "10.0.0.5", remote_addr := some "192.168.1.1",
    http_host := some "gw.example", data := [] }

/-- A stub authority answering 200 with an empty JSON object body. -/
def auth200Empty : Authority :=
  fun _ => { status_code := 200, text := "ok", body := [] }

/-- A stub authority answering 200 with a body carrying `pkcs7b64`. -/
def auth200Env : Authority :=
  fun _ => { status_code := 200, text := "ok",
             body := [("pkcs7b64", JVal.str "XYZ")] }

/-- A stub authority rejecting every call with status 500. -/
def auth500 : Authority :=
  fun _ => { status_code := 500, text := "signature check failed", body := [] }

/-- A stub authority rejecting the join endpoint with 500 and answering 200
with an envelope everywhere else. -/
def authJoin500 : Authority :=
  fun o =>
    if o.url = EimzoServiceApi.JOIN_URL then
      { status_code := 500, text := "bad join", body := [] }
    else
      { status_code := 200, text := "ok", body := [("pkcs7b64", JVal.str "XYZ")] }

/-- Claim C1: for every pair of fragment strings `a` and `b`, the join
operation performs exactly one upstream call whose payload is `a`, a single
`|` delimiter, and `b`, in the caller-supplied order — never reordered or
deduplicated. -/
theorem C1_join_payload_order (auth : Authority) (a b : String) (request : Request) :
    (EimzoServiceApi.pkcs7_join auth a b request).2 =
      [{ method := Method.post, url := EimzoServiceApi.JOIN_URL,
         headers := get_headers request,
         data := JVal.str (a ++ "|" ++ b) }] := rfl

/-- Claim C4: identity resolution returns the proxy-forwarded source-IP
field (`HTTP_X_REAL_IP`) when present and non-empty; otherwise the
transport-level peer address (`REMOTE_ADDR`) when present and non-empty;
otherwise the sentinel `"Unknown"`. (It is a total function: there is no
error case.) -/
theorem C4_get_user_ip_policy (request : Request) :
    (∀ s, request.http_x_real_ip = some s → s ≠ "" → get_user_ip request = s) ∧
    (pyTruthy request.http_x_real_ip = false →
      ∀ s, request.remote_addr = some s → s ≠ "" → get_user_ip request = s) ∧
    (pyTruthy request.http_x_real_ip = false → pyTruthy request.remote_addr = false →
      get_user_ip request = "Unknown") := by
  refine ⟨?_, ?_, ?_⟩
  · intro s hs hne
    simp [get_user_ip, pyTruthy, hs, hne]
  · intro hx s hs hne
    unfold get_user_ip
    rw [hx]
    simp [pyTruthy, hs, hne]
  · intro hx hr
    unfold get_user_ip
    rw [hx, hr]
    simp

/-- Witness for C4 at concrete requests exercising all three branches. -/
theorem C4_get_user_ip_policy_witness :
    get_user_ip { http_x_real_ip := some "10.0.0.5", remote_addr := some "192.168.1.1",
                  http_host := some "h", data := [] } = "10.0.0.5" ∧
    get_user_ip { http_x_real_ip := Option.none, remote_addr := some "192.168.1.1",
                  http_host := some "h", data := [] } = "192.168.1.1" ∧
    get_user_ip { http_x_real_ip := Option.none, remote_addr := Option.none,
                  http_host := some "h", data := [] } = "Unknown" :=
  ⟨(C4_get_user_ip_policy _).1 "10.0.0.5" rfl (by decide),
   (C4_get_user_ip_policy _).2.1 (by decide) "192.168.1.1" rfl (by decide),
   (C4_get_user_ip_policy _).2.2 (by decide) (by decide)⟩

/-- Claim C8: each of the four upstream operations performs exactly one
outbound call, whose header dict has exactly the two identity entries:
`Host` equal to the request's declared host verbatim, and `X-Real-IP` equal
to the resolved caller source IP. -/
theorem C8_identity_headers_on_every_call (auth : Authority) (request : Request)
    (p v : JVal) (a b : String) :
    ((EimzoServiceApi.eimzo_challenge auth request).2 =
        [EimzoServiceApi.challengeCall request] ∧
      (EimzoServiceApi.challengeCall request).headers =
        { host := request.http_host, x_real_ip := get_user_ip request }) ∧
    ((EimzoServiceApi.timestamp_pkcs7 auth p request).2 =
        [EimzoServiceApi.timestampCall request p] ∧
      (EimzoServiceApi.timestampCall request p).headers =
        { host := request.http_host, x_real_ip := get_user_ip request }) ∧
    ((EimzoServiceApi.eimzo_verify auth v request).2 =
        [EimzoServiceApi.verifyCall request v] ∧
      (EimzoServiceApi.verifyCall request v).headers =
        { host := request.http_host, x_real_ip := get_user_ip request }) ∧
    ((EimzoServiceApi.pkcs7_join auth a b request).2 =
        [EimzoServiceApi.joinCall request a b] ∧
      (EimzoServiceApi.joinCall request a b).headers =
        { host := request.http_host, x_real_ip := get_user_ip request }) :=
  ⟨⟨rfl, rfl⟩, ⟨rfl, rfl⟩, ⟨rfl, rfl⟩, ⟨rfl, rfl⟩⟩

/-- Claim C2: when the authority answers the timestamp call with status 200
and a parsed body in which `pkcs7b64` is absent or is the JSON boolean
`false` (the value Python's `.get(..., False) is False` test recognises),
the timestamp stage returns the distinct ambiguous outcome: a 406
not-acceptable `Response` carrying the parsed body — not an envelope and
not the `ValidationError` raised for non-200 statuses. -/
theorem C2_timestamp_ambiguous_success (auth : Authority) (request : Request)
    (pkcs7 : JVal)
    (h200 : (auth (EimzoServiceApi.timestampCall request pkcs7)).status_code = 200)
    (habs : jsonGet (auth (EimzoServiceApi.timestampCall request pkcs7)).body
              "pkcs7b64" = Option.none ∨
            jsonGet (auth (EimzoServiceApi.timestampCall request pkcs7)).body
              "pkcs7b64" = some (JVal.bool false)) :
    (SavePkcsView.timestamp_pkcs7 auth request pkcs7).1 =
      Except.ok (TimestampReturn.resp 406 false
        (auth (EimzoServiceApi.timestampCall request pkcs7)).body) := by
  unfold SavePkcsView.timestamp_pkcs7 EimzoServiceApi.timestamp_pkcs7
  cases habs with
  | inl h => simp [h200, pyGetD, h]
  | inr h => simp [h200, pyGetD, h]

/-- Witness for C2: a 200 authority with an empty body yields the 406
ambiguous outcome. -/
theorem C2_timestamp_ambiguous_success_witness :
    (SavePkcsView.timestamp_pkcs7 auth200Empty wReq (JVal.str "env")).1 =
      Except.ok (TimestampReturn.resp 406 false []) :=
  C2_timestamp_ambiguous_success auth200Empty wReq (JVal.str "env") rfl (Or.inl rfl)

/-- Claim C9: all three 200-status outcomes of the timestamp stage —
ambiguous (absent or literally-false `pkcs7b64`) and extracted envelope —
come back through the ordinary return channel (`Except.ok`), while a
non-200 status is raised as an exception (`Except.error`); a caller
chaining the returned value cannot tell the ambiguous `Response` object
from an envelope by control flow alone. -/
theorem C9_timestamp_return_channels (auth : Authority) (request : Request)
    (pkcs7 : JVal) :
    ((auth (EimzoServiceApi.timestampCall request pkcs7)).status_code = 200 →
      pyGetD (auth (EimzoServiceApi.timestampCall request pkcs7)).body "pkcs7b64"
          (JVal.bool false) = JVal.bool false →
      (SavePkcsView.timestamp_pkcs7 auth request pkcs7).1 =
        Except.ok (TimestampReturn.resp 406 false
          (auth (EimzoServiceApi.timestampCall request pkcs7)).body)) ∧
    ((auth (EimzoServiceApi.timestampCall request pkcs7)).status_code = 200 →
      ∀ v, pyGetD (auth (EimzoServiceApi.timestampCall request pkcs7)).body "pkcs7b64"
          (JVal.bool false) = v → v ≠ JVal.bool false →
      (SavePkcsView.timestamp_pkcs7 auth request pkcs7).1 =
        Except.ok (TimestampReturn.value v)) ∧
    ((auth (EimzoServiceApi.timestampCall request pkcs7)).status_code ≠ 200 →
      (SavePkcsView.timestamp_pkcs7 auth request pkcs7).1 =
        Except.error
          { success := false,
            err_msg := (auth (EimzoServiceApi.timestampCall request pkcs7)).text,
            code := some (auth (EimzoServiceApi.timestampCall request pkcs7)).status_code }) := by
  unfold SavePkcsView.timestamp_pkcs7 EimzoServiceApi.timestamp_pkcs7
  refine ⟨?_, ?_, ?_⟩
  · intro h200 hfalse
    simp [h200, hfalse]
  · intro h200 v hv hne
    simp [h200, hv, hne]
  · intro hne
    simp [hne]

/-- Witness for C9 at concrete stub authorities: ambiguous outcome and
extracted envelope both arrive as `Except.ok`, the 500 rejection as
`Except.error`. -/
theorem C9_timestamp_return_channels_witness :
    (SavePkcsView.timestamp_pkcs7 auth200Empty wReq (JVal.str "e")).1 =
      Except.ok (TimestampReturn.resp 406 false []) ∧
    (SavePkcsView.timestamp_pkcs7 auth200Env wReq (JVal.str "e")).1 =
      Except.ok (TimestampReturn.value (JVal.str "XYZ")) ∧
    (SavePkcsView.timestamp_pkcs7 auth500 wReq (JVal.str "e")).1 =
      Except.error { success := false, err_msg := "signature check failed",
                     code := some 500 } :=
  ⟨(C9_timestamp_return_channels auth200Empty wReq (JVal.str "e")).1 rfl rfl,
   (C9_timestamp_return_channels auth200Env wReq (JVal.str "e")).2.1 rfl
     (JVal.str "XYZ") rfl (by decide),
   (C9_timestamp_return_channels auth500 wReq (JVal.str "e")).2.2 (by decide)⟩

/-- Claim C6: when the authority answers the join call with status 200, the
join stage returns the `pkcs7b64` field of the parsed body through the
ordinary return channel; an absent field yields the null result (Python
`None`) — no exception and no distinct 406 outcome (the stage's return type
has no such case), unlike the timestamp stage. -/
theorem C6_join_stage_tolerates_absence (auth : Authority) (request : Request)
    (a b : String)
    (h200 : (auth (EimzoServiceApi.joinCall request a b)).status_code = 200) :
    (SavePkcsView.pkcs7_join auth request a b).1 =
      Except.ok (pyGet (auth (EimzoServiceApi.joinCall request a b)).body "pkcs7b64") ∧
    (jsonGet (auth (EimzoServiceApi.joinCall request a b)).body "pkcs7b64" =
        Option.none →
      (SavePkcsView.pkcs7_join auth request a b).1 = Except.ok JVal.null) := by
  unfold SavePkcsView.pkcs7_join EimzoServiceApi.pkcs7_join
  refine ⟨by simp [h200], ?_⟩
  intro habs
  simp [h200, pyGet, habs]

/-- Witness for C6: a 200 authority whose body lacks `pkcs7b64` makes the
join stage return the null result. -/
theorem C6_join_stage_tolerates_absence_witness :
    (SavePkcsView.pkcs7_join auth200Empty wReq "fragA" "fragB").1 =
      Except.ok (pyGet [] "pkcs7b64") ∧
    ((jsonGet [] "pkcs7b64" = Option.none) →
      (SavePkcsView.pkcs7_join auth200Empty wReq "fragA" "fragB").1 =
        Except.ok JVal.null) :=
  C6_join_stage_tolerates_absence auth200Empty wReq "fragA" "fragB" rfl

/-- Claim C10: on a 200 authority response the compose view's verify wrapper
returns Python `None`, discarding the parsed verification payload, while the
verify-only view's wrapper returns the parsed body; the two wrappers over
the same upstream call disagree on success. -/
theorem C10_verify_wrappers_not_equivalent (auth : Authority) (request : Request)
    (v : JVal)
    (h200 : (auth (EimzoServiceApi.verifyCall request v)).status_code = 200) :
    (SavePkcsView.eimzo_verify auth request v).1 = Except.ok PyValue.none ∧
    (PkcsVerify.eimzo_verify auth request v).1 =
      Except.ok (PyValue.obj (auth (EimzoServiceApi.verifyCall request v)).body) ∧
    (SavePkcsView.eimzo_verify auth request v).1 ≠
      (PkcsVerify.eimzo_verify auth request v).1 := by
  unfold SavePkcsView.eimzo_verify PkcsVerify.eimzo_verify EimzoServiceApi.eimzo_verify
  refine ⟨by simp [h200], by simp [h200], ?_⟩
  simp [h200]

/-- Witness for C10: with a 200 stub authority, one wrapper yields `None`,
the other the parsed body. -/
theorem C10_verify_wrappers_not_equivalent_witness :
    (SavePkcsView.eimzo_verify auth200Env wReq (JVal.str "p")).1 =
      Except.ok PyValue.none ∧
    (PkcsVerify.eimzo_verify auth200Env wReq (JVal.str "p")).1 =
      Except.ok (PyValue.obj [("pkcs7b64", JVal.str "XYZ")]) ∧
    (SavePkcsView.eimzo_verify auth200Env wReq (JVal.str "p")).1 ≠
      (PkcsVerify.eimzo_verify auth200Env wReq (JVal.str "p")).1 :=
  C10_verify_wrappers_not_equivalent auth200Env wReq (JVal.str "p") rfl

/-- Whether the list `pat` occurs at the head of `l`. -/
def leadsWith : List Char → List Char → Bool
  | [], _ => true
  | _ :: _, [] => false
  | a :: pat, b :: l => a == b && leadsWith pat l

/-- Whether the list `pat` occurs contiguously anywhere inside `l`. -/
def hasSub (pat : List Char) : List Char → Bool
  | [] => pat.isEmpty
  | c :: l => leadsWith pat (c :: l) || hasSub pat l

/-- The error values the source raises have exactly the fields `success`,
`err_msg` and `code` (src/eimzo.py lines 125-128, 149-152, 165-168,
189-192, 201-204); a stage name could therefore only occur as text inside
`err_msg`. This checks for such an occurrence (substring test on the
character list). -/
def carries_stage (e : ValidationError) (stage : String) : Bool :=
  hasSub stage.toList e.err_msg.toList

/-- Counterexample to claim C5 as stated: a verify call rejected with
status 500 and raw body "signature check failed" yields, in both verify
wrappers, an error built only from the raw body and status; it nowhere
carries the stage name "verify". -/
theorem C5_counterexample_no_stage_name :
    (auth500 (EimzoServiceApi.verifyCall wReq (JVal.str "env"))).status_code = 500 ∧
    (PkcsVerify.eimzo_verify auth500 wReq (JVal.str "env")).1 =
      Except.error
        { success := false, err_msg := "signature check failed", code := some 500 } ∧
    (SavePkcsView.eimzo_verify auth500 wReq (JVal.str "env")).1 =
      Except.error
        { success := false, err_msg := "signature check failed", code := some 500 } ∧
    carries_stage
      { success := false, err_msg := "signature check failed", code := some 500 }
      "verify" = false :=
  ⟨rfl, rfl, rfl, by decide⟩

/-- Claim C5 amended: on a non-200 verify response, both verify wrappers
raise a validation-class error whose payload is built solely from the
authority's raw response body (`err_msg`) and status (`code`), with
`success := false`; no field names the stage. -/
theorem C5_verify_rejection_carries_raw_body (auth : Authority)
    (request : Request) (v : JVal)
    (h : (auth (EimzoServiceApi.verifyCall request v)).status_code ≠ 200) :
    (PkcsVerify.eimzo_verify auth request v).1 =
      Except.error
        { success := false,
          err_msg := (auth (EimzoServiceApi.verifyCall request v)).text,
          code := some (auth (EimzoServiceApi.verifyCall request v)).status_code } ∧
    (SavePkcsView.eimzo_verify auth request v).1 =
      Except.error
        { success := false,
          err_msg := (auth (EimzoServiceApi.verifyCall request v)).text,
          code := some (auth (EimzoServiceApi.verifyCall request v)).status_code } := by
  unfold PkcsVerify.eimzo_verify SavePkcsView.eimzo_verify EimzoServiceApi.eimzo_verify
  exact ⟨by simp [h], by simp [h]⟩

/-- Witness for the amended C5 at the 500 stub authority. -/
theorem C5_verify_rejection_carries_raw_body_witness :
    (PkcsVerify.eimzo_verify auth500 wReq (JVal.str "p")).1 =
      Except.error
        { success := false, err_msg := "signature check failed", code := some 500 } ∧
    (SavePkcsView.eimzo_verify auth500 wReq (JVal.str "p")).1 =
      Except.error
        { success := false, err_msg := "signature check failed", code := some 500 } :=
  C5_verify_rejection_carries_raw_body auth500 wReq (JVal.str "p") (by decide)

/-- A request whose body contains `pkcs7b64` with the JSON null value. -/
def nullFieldReq : Request :=
  { http_x_real_ip := some "1.2.3.4", remote_addr := some "5.6.7.8",
    http_host := some "gw.example", data := [("pkcs7b64", JVal.null)] }

/-- Counterexample to claim C3 as stated: a request whose body does contain
the `pkcs7b64` field (with JSON null value) nevertheless gets the
missing-field error and triggers no upstream call — Python's
`request.data.get("pkcs7b64") is None` cannot tell a null value from an
absent key. -/
theorem C3_counterexample_null_field :
    (jsonGet nullFieldReq.data "pkcs7b64").isSome = true ∧
    (PkcsVerify.post auth200Env nullFieldReq).2 = [] ∧
    (PkcsVerify.post auth200Env nullFieldReq).1 =
      Except.error
        { success := false, err_msg := "pkcs7b64 field is required",
          code := Option.none } :=
  ⟨rfl, rfl, rfl⟩

/-- Claim C3 amended: when the body's `pkcs7b64` reads back as Python `None`
(field absent, or present with the null value), the verify-only endpoint
fails immediately with the structured missing-field error and performs no
upstream call; when it reads back non-null, the endpoint performs exactly
the one verify call and, on a 200 authority response, returns the parsed
verification payload verbatim with status 200. -/
theorem C3_verify_only_endpoint (auth : Authority) (request : Request) :
    (pyGet request.data "pkcs7b64" = JVal.null →
      (PkcsVerify.post auth request).1 =
        Except.error
          { success := false, err_msg := "pkcs7b64 field is required",
            code := Option.none } ∧
      (PkcsVerify.post auth request).2 = []) ∧
    (∀ v, pyGet request.data "pkcs7b64" = v → v ≠ JVal.null →
      (PkcsVerify.post auth request).2 = [EimzoServiceApi.verifyCall request v] ∧
      ((auth (EimzoServiceApi.verifyCall request v)).status_code = 200 →
        (PkcsVerify.post auth request).1 =
          Except.ok
            { data := PyValue.obj (auth (EimzoServiceApi.verifyCall request v)).body,
              stat := 200 })) := by
  unfold PkcsVerify.post PkcsVerify.eimzo_verify EimzoServiceApi.eimzo_verify
  constructor
  · intro hnull
    simp [hnull]
  · intro v hv hne
    constructor
    · by_cases hs : (auth (EimzoServiceApi.verifyCall request v)).status_code = 200 <;>
        simp [hv, hne, hs]
    · intro h200
      simp [hv, hne, h200]

/-- Witness for the amended C3: the missing-field branch at an empty body,
and the upstream branch at a body carrying a string value. -/
theorem C3_verify_only_endpoint_witness :
    ((PkcsVerify.post auth200Env wReq).1 =
        Except.error
          { success := false, err_msg := "pkcs7b64 field is required",
            code := Option.none } ∧
      (PkcsVerify.post auth200Env wReq).2 = []) ∧
    ((PkcsVerify.post auth200Env
        { http_x_real_ip := some "1.2.3.4", remote_addr := some "5.6.7.8",
          http_host := some "gw.example",
          data := [("pkcs7b64", JVal.str "sig")] }).2 =
      [EimzoServiceApi.verifyCall
        { http_x_real_ip := some "1.2.3.4", remote_addr := some "5.6.7.8",
          http_host := some "gw.example",
          data := [("pkcs7b64", JVal.str "sig")] } (JVal.str "sig")]) :=
  ⟨(C3_verify_only_endpoint auth200Env wReq).1 rfl,
   ((C3_verify_only_endpoint auth200Env
      { http_x_real_ip := some "1.2.3.4", remote_addr := some "5.6.7.8",
        http_host := some "gw.example",
        data := [("pkcs7b64", JVal.str "sig")] }).2
     (JVal.str "sig") rfl (by decide)).1⟩

/-- Claim C7 (composite modelled from the spec over the source's stage
methods): a non-200 join response aborts the chain with the join rejection
before any timestamp call is made — the trace is exactly the one join call
and contains no request to the timestamp URL — and a result delivered
through the ordinary return channel requires both the join call and the
subsequent timestamp call to have returned 200. -/
theorem C7_sign_and_stamp_fail_fast (auth : Authority) (request : Request)
    (a b : String) :
    ((auth (EimzoServiceApi.joinCall request a b)).status_code ≠ 200 →
      (SavePkcsView.sign_and_stamp auth request a b).1 =
        Except.error
          { success := false,
            err_msg := (auth (EimzoServiceApi.joinCall request a b)).text,
            code := some (auth (EimzoServiceApi.joinCall request a b)).status_code } ∧
      (SavePkcsView.sign_and_stamp auth request a b).2 =
        [EimzoServiceApi.joinCall request a b] ∧
      ∀ o ∈ (SavePkcsView.sign_and_stamp auth request a b).2,
        o.url ≠ EimzoServiceApi.TIME_STAMP_URL) ∧
    (∀ r, (SavePkcsView.sign_and_stamp auth request a b).1 = Except.ok r →
      (auth (EimzoServiceApi.joinCall request a b)).status_code = 200 ∧
      (auth (EimzoServiceApi.timestampCall request
        (pyGet (auth (EimzoServiceApi.joinCall request a b)).body
          "pkcs7b64"))).status_code = 200) := by
  unfold SavePkcsView.sign_and_stamp SavePkcsView.pkcs7_join
    SavePkcsView.timestamp_pkcs7 EimzoServiceApi.pkcs7_join
    EimzoServiceApi.timestamp_pkcs7
  constructor
  · intro hj
    refine ⟨by simp [hj], by simp [hj], ?_⟩
    intro o ho
    simp [hj] at ho
    subst ho
    simp [EimzoServiceApi.joinCall, EimzoServiceApi.JOIN_URL,
      EimzoServiceApi.TIME_STAMP_URL]
  · intro r hr
    by_cases hj : (auth (EimzoServiceApi.joinCall request a b)).status_code = 200
    · by_cases ht : (auth (EimzoServiceApi.timestampCall request
        (pyGet (auth (EimzoServiceApi.joinCall request a b)).body
          "pkcs7b64"))).status_code = 200
      · exact ⟨hj, ht⟩
      · simp [hj, ht] at hr
    · simp [hj] at hr

/-- Witness for C7: clause one at a stub rejecting the join endpoint with
500, clause two at a stub answering 200 with an envelope everywhere. -/
theorem C7_sign_and_stamp_fail_fast_witness :
    ((SavePkcsView.sign_and_stamp authJoin500 wReq "fragA" "fragB").1 =
        Except.error { success := false, err_msg := "bad join", code := some 500 } ∧
      (SavePkcsView.sign_and_stamp authJoin500 wReq "fragA" "fragB").2 =
        [EimzoServiceApi.joinCall wReq "fragA" "fragB"] ∧
      ∀ o ∈ (SavePkcsView.sign_and_stamp authJoin500 wReq "fragA" "fragB").2,
        o.url ≠ EimzoServiceApi.TIME_STAMP_URL) ∧
    ((auth200Env (EimzoServiceApi.joinCall wReq "fragA" "fragB")).status_code = 200 ∧
      (auth200Env (EimzoServiceApi.timestampCall wReq
        (pyGet (auth200Env (EimzoServiceApi.joinCall wReq "fragA" "fragB")).body
          "pkcs7b64"))).status_code = 200) :=
  ⟨(C7_sign_and_stamp_fail_fast authJoin500 wReq "fragA" "fragB").1 (by decide),
   (C7_sign_and_stamp_fail_fast auth200Env wReq "fragA" "fragB").2
     (TimestampReturn.value (JVal.str "XYZ")) rfl⟩
